import Mathlib

/-!
Shallow embedding of the ed-fc-cargo-tracker-lib cargo synchronization core
(src/cargo_tally.py, src/fleetcarriercargo.py, src/watchable_cargo_tally.py,
src/_cargo_monitor.py), together with theorems settling the frozen claims
about it.

Modelling conventions:
* Python dicts are association lists with unique keys in insertion order;
  `dictGet` / `dictInsert` mirror `d.get` / `d[k] = v` (update preserves the
  entry's position, a fresh key is appended).
* Machine integers are `Int`.
* A mutator callback that raises is modelled by the `CbOutcome.raised`
  constructor carrying the cargo mapping as the callback left it.
* `hash(frozenset(d.items()))` is modelled by the finite set of (key, value)
  pairs itself (an order-independent fingerprint; Python hash collisions are
  abstracted away).
* Wall-clock instants are epoch seconds (`Int`); `datetime.fromisoformat`
  is modelled on the exact textual format this program itself writes.
-/

set_option autoImplicit false

/-- Lookup in a Python-dict model: first (only) entry with the given key. -/
def dictGet {α β : Type} [DecidableEq α] : List (α × β) → α → Option β
  | [], _ => none
  | p :: m, k => if p.1 = k then some p.2 else dictGet m k

/-- Python `d[k] = v`: replace in place if the key is present, else append. -/
def dictInsert {α β : Type} [DecidableEq α] : List (α × β) → α → β → List (α × β)
  | [], k, v => [(k, v)]
  | p :: m, k, v => if p.1 = k then (k, v) :: m else p :: dictInsert m k v

/-- Model of `CargoKey` (src/cargo_tally.py, src/fleetcarriercargo.py).
The constructor always sets the fields `qty`, `value` and `locName` to
`None`, so they are constant over every constructed key and are omitted
from the model. -/
structure CargoKey where
  commodity : String
  stolen : Bool
  mission : Bool
  originSystem : Option String
deriving DecidableEq

/-- Model of the parsed JSON object of CargoKey fields: the opaque key
string produced by `CargoKey.to_string` is the canonical (sorted-keys)
JSON dump of the fields, which is a bijection onto such field records. -/
structure KeyDict where
  commodity : String
  stolen : Bool
  mission : Bool
  originSystem : Option String
deriving DecidableEq

/-- Python `str.lower()`, modelled character-wise (the commodity symbols
this program lower-cases are plain ASCII identifiers). -/
def strLower (s : String) : String :=
  ⟨s.data.map Char.toLower⟩

/-- `CargoKey.__init__` on a plain string: lower-cases the symbol and uses
the default provenance. -/
def CargoKey.ofCommodity (s : String) : CargoKey :=
  ⟨strLower s, false, false, none⟩

/-- `CargoKey.__init__` on a dict: lower-cases the commodity and (per the
TODO at src/cargo_tally.py lines 33-36) forces `stolen = False`,
`mission = False`, `originSystem = None`, discarding the dict's provenance. -/
def CargoKey.ofDict (d : KeyDict) : CargoKey :=
  ⟨strLower d.commodity, false, false, none⟩

/-- `CargoKey.to_string`: the canonical JSON dump of the fields, modelled
as the field record itself. -/
def CargoKey.to_string (k : CargoKey) : KeyDict :=
  ⟨k.commodity, k.stolen, k.mission, k.originSystem⟩

/-- `CargoTally` proper (src/cargo_tally.py): dict from CargoKey to int. -/
abbrev KTally := List (CargoKey × Int)

/-- `CargoTally.to_json_dict`: `{key.to_string(): value for key, value in self.items()}`. -/
def CargoTally.to_json_dict (c : KTally) : List (KeyDict × Int) :=
  c.foldl (fun acc p => dictInsert acc p.1.to_string p.2) []

/-- `CargoTally.load_from_dict` / `from_json_dict`: decodes every key string
and assigns, later duplicates overwriting earlier ones. -/
def CargoTally.from_json_dict (d : List (KeyDict × Int)) : KTally :=
  d.foldl (fun acc p => dictInsert acc (CargoKey.ofDict p.1) p.2) []

/-- A key of the shared cargo dict at runtime: the dict is supposed to hold
`CargoKey` keys, but callers (the CargoMonitor handlers) can and do insert
plain string keys, which `inventory` then filters out as invalid. -/
inductive LKey where
  | ck (k : CargoKey)
  | str (s : String)
deriving DecidableEq

/-- `isinstance(k, CargoKey)` on a dict key. -/
def LKey.isCargoKey : LKey → Bool
  | .ck _ => true
  | .str _ => false

/-- The shared cargo dict as it exists at runtime (keys may transiently be
plain strings). -/
abbrev Tally := List (LKey × Int)

/-- The CargoKey-keyed entries of a runtime tally.  `to_json_dict` calls
`key.to_string()`, which would raise on a non-CargoKey key; every point in
the source that serializes does so on a tally containing only CargoKey keys
(after `inventory`'s filter, after `from_json_dict`, or as built by
`_load_from_capi`), so restricting to those entries is faithful there. -/
def tallyCks (c : Tally) : KTally :=
  c.filterMap (fun p => match p.1 with | .ck k => some (k, p.2) | .str _ => none)

/-- Injection of a CargoKey-keyed tally into the runtime tally. -/
def ofKTally (c : KTally) : Tally :=
  c.map (fun p => (LKey.ck p.1, p.2))

/-- Model of the persisted JSON blob written by `_save_not_locked`
(fields absent from a hand-made blob default via `.get`, which `Option`
and the empty list model). -/
structure Blob where
  cargo : List (KeyDict × Int)
  lastSync : Option String
  callSign : Option String
deriving DecidableEq

/-- The opaque string store under the config key: missing/empty string,
unparsable JSON, or a parsed blob. -/
inductive StoredBlob where
  | missing
  | corrupt
  | ok (b : Blob)
deriving DecidableEq

/-- The in-memory state of the `FleetCarrierCargo` singleton: `_cargo`,
`_last_sync`, `_call_sign`. -/
structure FCState where
  cargo : Tally
  lastSync : Option String
  callSign : Option String
deriving DecidableEq

/-- The singleton state together with the persisted store it reads/writes. -/
structure SysState where
  fc : FCState
  store : StoredBlob
deriving DecidableEq

/-- The JSON blob `_save_not_locked` writes from the current state. -/
def FleetCarrierCargo.save_blob (fc : FCState) : Blob :=
  ⟨CargoTally.to_json_dict (tallyCks fc.cargo), fc.lastSync, fc.callSign⟩

/-- `_save_not_locked`: persists the full current state into the store. -/
def FleetCarrierCargo.save_not_locked (s : SysState) : SysState :=
  ⟨s.fc, .ok (FleetCarrierCargo.save_blob s.fc)⟩

/-- Order-independent content fingerprint: models
`hash(frozenset(cargo.items()))` by the set of items itself. -/
def itemsFingerprint (c : Tally) : Finset (LKey × Int) :=
  c.toFinset

/-- Outcome of invoking a mutator callback on the cargo dict: normal return
with the final mapping and the bool result, or an exception escaping with
the mapping as the callback left it. -/
inductive CbOutcome where
  | ret (cargo : Tally) (res : Bool)
  | raised (cargo : Tally)

/-- Result of one `FleetCarrierCargo.inventory` call: the state afterwards,
how many times `_signal_cargo_was_changed` was invoked, and whether the
callback's exception propagated to the caller. -/
structure InvResult where
  sys : SysState
  notifications : Nat
  raised : Bool
deriving DecidableEq

/-- Model of `FleetCarrierCargo.inventory` (src/fleetcarriercargo.py lines
208-245).  Under the cargo lock: fingerprint, run the callback, drop
entries whose key is not a CargoKey or whose quantity is not > 0,
re-fingerprint; if the callback returned True update the access time to
`now` and persist; signal exactly once if the fingerprint changed.  The
source has no try/finally around the callback, so on an exception the
with-block releases the lock and everything after the callback is skipped. -/
def FleetCarrierCargo.inventory (s : SysState) (now : String)
    (callback : Option String → Tally → CbOutcome) : InvResult :=
  let old_hash := itemsFingerprint s.fc.cargo
  match callback s.fc.callSign s.fc.cargo with
  | .raised c => ⟨⟨⟨c, s.fc.lastSync, s.fc.callSign⟩, s.store⟩, 0, true⟩
  | .ret c res =>
    let c2 : Tally := c.filter (fun p => p.1.isCargoKey && decide (0 < p.2))
    let new_hash := itemsFingerprint c2
    let fc2 : FCState :=
      if res then ⟨c2, some now, s.fc.callSign⟩ else ⟨c2, s.fc.lastSync, s.fc.callSign⟩
    let store2 : StoredBlob :=
      if res then .ok (FleetCarrierCargo.save_blob fc2) else s.store
    ⟨⟨fc2, store2⟩, if old_hash = new_hash then 0 else 1, false⟩

/-- Result of `FleetCarrierCargo.load`: state afterwards, the returned
success bool, and the number of change signals scheduled. -/
structure LoadResult where
  sys : SysState
  success : Bool
  notifications : Nat
deriving DecidableEq

/-- Model of `FleetCarrierCargo.load` (src/fleetcarriercargo.py lines
247-269): missing or unparsable blob returns False without touching state;
otherwise cargo, last_sync and call_sign are replaced wholesale from the
blob and `_signal_cargo_was_changed` is invoked unconditionally. -/
def FleetCarrierCargo.load (s : SysState) : LoadResult :=
  match s.store with
  | .missing => ⟨s, false, 0⟩
  | .corrupt => ⟨s, false, 0⟩
  | .ok b => ⟨⟨⟨ofKTally (CargoTally.from_json_dict b.cargo), b.lastSync, b.callSign⟩, s.store⟩, true, 1⟩

/-- Leap year test (Gregorian), as `datetime` uses. -/
def isLeapYear (y : Nat) : Bool :=
  y % 4 = 0 && (y % 100 != 0 || y % 400 = 0)

/-- Number of days in a month of a given year. -/
def daysInMonth (y m : Nat) : Nat :=
  if m = 2 then (if isLeapYear y then 29 else 28)
  else if m = 4 || m = 6 || m = 9 || m = 11 then 30
  else 31

/-- Days since 1970-01-01 of a civil date (standard era-based algorithm). -/
def daysFromCivil (y m d : Int) : Int :=
  let yy : Int := if m ≤ 2 then y - 1 else y
  let era : Int := (if 0 ≤ yy then yy else yy - 399) / 400
  let yoe : Int := yy - era * 400
  let doy : Int := (153 * (if m ≤ 2 then m + 9 else m - 3) + 2) / 5 + d - 1
  let doe : Int := yoe * 365 + yoe / 4 - yoe / 100 + doy
  era * 146097 + doe - 719468

/-- Numeric value of a decimal digit character. -/
def digitVal (c : Char) : Nat :=
  c.toNat - 48

/-- Model of `datetime.datetime.fromisoformat` followed by subtraction from
an aware `now()`, restricted to the UTC second-precision format this program
itself writes via `_update_access_time_not_locked`
(`YYYY-MM-DDTHH:MM:SS+00:00`): returns the epoch second of the instant.
`none` models every failing case the source's `except` catches — a parse
error as well as a naive timestamp whose subtraction from the aware `now`
raises. -/
def fromisoformatUTC (s : String) : Option Int :=
  match s.data with
  | [y1, y2, y3, y4, d1, mo1, mo2, d2, dd1, dd2, t1, h1, h2, c1, mi1, mi2, c2, s1, s2,
     p1, z1, z2, c3, z3, z4] =>
    if (y1.isDigit && y2.isDigit && y3.isDigit && y4.isDigit && d1 = '-' &&
        mo1.isDigit && mo2.isDigit && d2 = '-' && dd1.isDigit && dd2.isDigit &&
        t1 = 'T' && h1.isDigit && h2.isDigit && c1 = ':' && mi1.isDigit && mi2.isDigit &&
        c2 = ':' && s1.isDigit && s2.isDigit &&
        p1 = '+' && z1 = '0' && z2 = '0' && c3 = ':' && z3 = '0' && z4 = '0') then
      let y := 1000 * digitVal y1 + 100 * digitVal y2 + 10 * digitVal y3 + digitVal y4
      let mo := 10 * digitVal mo1 + digitVal mo2
      let dd := 10 * digitVal dd1 + digitVal dd2
      let h := 10 * digitVal h1 + digitVal h2
      let mi := 10 * digitVal mi1 + digitVal mi2
      let ss := 10 * digitVal s1 + digitVal s2
      if 1 ≤ y && 1 ≤ mo && mo ≤ 12 && 1 ≤ dd && dd ≤ daysInMonth y mo &&
          h ≤ 23 && mi ≤ 59 && ss ≤ 59 then
        some (daysFromCivil y mo dd * 86400 + h * 3600 + mi * 60 + ss)
      else none
    else none
  | _ => none

/-- Model of `FleetCarrierCargo.is_sync_stale` (src/fleetcarriercargo.py
lines 150-169).  `lastSync` is the `_last_sync` snapshot read under the
lock; `nowEpoch` is the wall clock `datetime.now(utc)` in epoch seconds.
True when the string is absent or empty, when parsing or the subtraction
raises, or when the age strictly exceeds `max_age_seconds`. -/
def FleetCarrierCargo.is_sync_stale (lastSync : Option String) (nowEpoch : Int)
    (max_age_seconds : Int) : Bool :=
  match lastSync with
  | none => true
  | some str =>
    if str = "" then true
    else
      match fromisoformatUTC str with
      | none => true
      | some t => decide (nowEpoch - t > max_age_seconds)

/-- One element of the CAPI response's `cargo` list.  `value` and `locName`
are nulled by `CargoKey.__init__` and never read elsewhere, so they are
omitted. -/
structure CAPIItem where
  commodity : String
  stolen : Bool
  mission : Bool
  originSystem : Option String
  qty : Int
deriving DecidableEq

/-- The dict of CargoKey-relevant fields of a CAPI item, as handed to
`CargoKey.__init__`. -/
def CAPIItem.toKeyDict (i : CAPIItem) : KeyDict :=
  ⟨i.commodity, i.stolen, i.mission, i.originSystem⟩

/-- The parts of a CAPI response `_load_from_capi` reads.  `callsign = none`
models a response in which `name` or `name.callsign` is absent, so that
`data["name"]["callsign"]` raises KeyError; `some none` models a JSON null;
`some (some s)` a string. -/
structure CAPIData where
  callsign : Option (Option String)
  cargo : List CAPIItem

/-- Python truthiness test `not call_sign` for `str | None`. -/
def capiFalsy : Option String → Bool
  | none => true
  | some s => s == ""

/-- Result of one `_load_from_capi` call: state afterwards, signals
scheduled, and whether an exception propagated to the caller. -/
structure CapiResult where
  sys : SysState
  notifications : Nat
  raised : Bool
deriving DecidableEq

/-- Model of `FleetCarrierCargo._load_from_capi` (src/fleetcarriercargo.py
lines 310-345).  Note the order in the source: `_call_sign` is assigned
from the response first, and only then tested for truthiness; the empty
branch returns with the overwritten call sign in place.  A missing key
raises before any assignment.  On the good path the cargo is rebuilt
summing duplicate keys, the access time is set, state is persisted, and
one signal is scheduled after the lock is released. -/
def FleetCarrierCargo.load_from_capi (s : SysState) (now : String)
    (data : CAPIData) : CapiResult :=
  match data.callsign with
  | none => ⟨s, 0, true⟩
  | some cs =>
    let s1 : SysState := ⟨⟨s.fc.cargo, s.fc.lastSync, cs⟩, s.store⟩
    if capiFalsy cs then ⟨s1, 0, false⟩
    else
      let kt : KTally := data.cargo.foldl (fun acc item =>
        let key := CargoKey.ofDict item.toKeyDict
        match dictGet acc key with
        | some q => dictInsert acc key (q + item.qty)
        | none => dictInsert acc key item.qty) []
      let fc2 : FCState := ⟨ofKTally kt, some now, cs⟩
      ⟨⟨fc2, .ok (FleetCarrierCargo.save_blob fc2)⟩, 1, false⟩

/-- The environment one `update_from_server` worker runs against, indexed
by attempt number: liveness of the main thread, `session.state == STATE_OK`,
and the fetch outcome (`none` models the GET or `.json()` raising). -/
structure RemoteEnv where
  mainAlive : Nat → Bool
  sessionOk : Nat → Bool
  fetch : Nat → Option CAPIData
  nowAt : Nat → String

/-- Result of one `update_from_server` worker: final state, how many
network fetches were issued, signals scheduled, and how many loop
iterations were entered. -/
structure UpdaterResult where
  sys : SysState
  networkCalls : Nat
  notifications : Nat
  attemptsRun : Nat
deriving DecidableEq

/-- The retry loop of `update_from_server`'s `updater`
(src/fleetcarriercargo.py lines 386-417): up to the remaining attempt
budget, abort if the main thread died, sleep-and-retry while the session is
not OK, fetch otherwise; a fetch or parse exception and a KeyError from
`_load_from_capi` are caught and retried; a normal `_load_from_capi`
return (including the aborted empty-call-sign one) ends the loop. -/
def FleetCarrierCargo.updater_loop (env : RemoteEnv) : SysState → Nat → Nat →
    Nat → Nat → UpdaterResult
  | s, attempt, 0, calls, notifs => ⟨s, calls, notifs, attempt⟩
  | s, attempt, remaining + 1, calls, notifs =>
    if !env.mainAlive attempt then ⟨s, calls, notifs, attempt⟩
    else if !env.sessionOk attempt then
      FleetCarrierCargo.updater_loop env s (attempt + 1) remaining calls notifs
    else
      match env.fetch attempt with
      | none => FleetCarrierCargo.updater_loop env s (attempt + 1) remaining (calls + 1) notifs
      | some data =>
        let r := FleetCarrierCargo.load_from_capi s (env.nowAt attempt) data
        if r.raised then
          FleetCarrierCargo.updater_loop env r.sys (attempt + 1) remaining (calls + 1)
            (notifs + r.notifications)
        else ⟨r.sys, calls + 1, notifs + r.notifications, attempt + 1⟩

/-- Model of the worker body spawned by `FleetCarrierCargo.update_from_server`
(src/fleetcarriercargo.py lines 371-422).  `alreadyUpdating` is the state of
`_updates_lock` (what `is_updating_from_server` reports): when it is held,
`acquire(blocking=False)` fails and the worker returns at once — no retry
loop iteration, no network call, no queuing, no state change, no error. -/
def FleetCarrierCargo.updater (alreadyUpdating : Bool) (env : RemoteEnv)
    (s : SysState) : UpdaterResult :=
  if alreadyUpdating then ⟨s, 0, 0, 0⟩
  else FleetCarrierCargo.updater_loop env s 0 30 0 0

/-- Model of `PersistentCmdrState`: the one persisted flag. -/
structure CmdrState where
  is_docked_on_own_carrer : Bool
deriving DecidableEq

/-- The CargoMonitor's per-commander state together with its persisted copy
(`none` when nothing was ever saved). -/
structure MonitorState where
  cmdrState : CmdrState
  savedCmdrState : Option CmdrState
deriving DecidableEq

/-- One line of a `CargoTransfer` event's `Transfers` list. -/
structure Transfer where
  commodityType : String
  count : Int
  direction : String
deriving DecidableEq

/-- The `process_transfers` closure of `CargoMonitor.handle_cargo_transfer`
(src/_cargo_monitor.py lines 263-273): for each line it lower-cases the
`Type` and uses it as a plain string dict key, reads the current value
with default 0, applies the direction, writes it back, and returns True. -/
def CargoMonitor.process_transfers (transfers : List Transfer) :
    Option String → Tally → CbOutcome :=
  fun _ cargo =>
    .ret (transfers.foldl (fun c t =>
      let key := LKey.str (strLower t.commodityType)
      let item0 := (dictGet c key).getD 0
      let item1 := if t.direction = "toship" then item0 - t.count else item0
      let item2 := if t.direction = "tocarrier" then item1 + t.count else item1
      dictInsert c key item2) cargo) true

/-- Result of `handle_cargo_transfer`: monitor state and the inventory
call's result. -/
structure TransferResult where
  mon : MonitorState
  inv : InvResult
deriving DecidableEq

/-- Model of `CargoMonitor.handle_cargo_transfer` (src/_cargo_monitor.py
lines 254-275): if not marked docked on the own carrier, log a warning,
force the flag to True and persist it; then apply the transfer lines
through `FleetCarrierCargo.inventory`. -/
def CargoMonitor.handle_cargo_transfer (ms : MonitorState) (s : SysState)
    (now : String) (transfers : List Transfer) : TransferResult :=
  let ms1 : MonitorState :=
    if ms.cmdrState.is_docked_on_own_carrer then ms else ⟨⟨true⟩, some ⟨true⟩⟩
  ⟨ms1, FleetCarrierCargo.inventory s now (CargoMonitor.process_transfers transfers)⟩

theorem dictInsert_of_get_none {α β : Type} [DecidableEq α] (m : List (α × β)) (k : α) (v : β)
    (h : dictGet m k = none) : dictInsert m k v = m ++ [(k, v)] := by
  induction m with
  | nil => rfl
  | cons p m ih =>
    simp only [dictGet] at h
    by_cases hk : p.1 = k
    · simp [hk] at h
    · rw [if_neg hk] at h
      simp only [dictInsert, if_neg hk, ih h, List.cons_append]

theorem dictGet_append_of_none {α β : Type} [DecidableEq α] (a b : List (α × β)) (k : α)
    (h : dictGet a k = none) : dictGet (a ++ b) k = dictGet b k := by
  induction a with
  | nil => rfl
  | cons p a ih =>
    simp only [dictGet, List.cons_append] at h ⊢
    by_cases hk : p.1 = k
    · simp [hk] at h
    · rw [if_neg hk] at h ⊢
      exact ih h

theorem foldl_dictInsert_map {α β γ : Type} [DecidableEq α] (key : γ → α) (val : γ → β)
    (L : List γ) (acc : List (α × β))
    (hacc : ∀ x ∈ L, dictGet acc (key x) = none) (hnd : (L.map key).Nodup) :
    L.foldl (fun a x => dictInsert a (key x) (val x)) acc
      = acc ++ L.map (fun x => (key x, val x)) := by
  induction L generalizing acc with
  | nil => simp
  | cons x L ih =>
    simp only [List.map_cons, List.nodup_cons] at hnd
    have hx : dictGet acc (key x) = none := hacc x (List.mem_cons_self x L)
    have h1 : dictInsert acc (key x) (val x) = acc ++ [(key x, val x)] :=
      dictInsert_of_get_none acc (key x) (val x) hx
    have hacc2 : ∀ y ∈ L, dictGet (acc ++ [(key x, val x)]) (key y) = none := by
      intro y hy
      rw [dictGet_append_of_none _ _ _ (hacc y (List.mem_cons_of_mem x hy))]
      have hne : key x ≠ key y := by
        intro hcontra
        exact hnd.1 (hcontra ▸ List.mem_map_of_mem key hy)
      simp [dictGet, hne]
    rw [List.foldl_cons, h1, ih _ hacc2 hnd.2, List.map_cons]
    simp

theorem CargoKey.to_string_injective : Function.Injective CargoKey.to_string := by
  intro a b h
  cases a
  cases b
  simpa [CargoKey.to_string, KeyDict.mk.injEq, CargoKey.mk.injEq] using h

theorem CargoTally.to_json_dict_eq_map (L : KTally) (h : (L.map Prod.fst).Nodup) :
    CargoTally.to_json_dict L = L.map (fun p => (p.1.to_string, p.2)) := by
  have hnd : (L.map (fun p : CargoKey × Int => p.1.to_string)).Nodup := by
    have hcomp : L.map (fun p : CargoKey × Int => p.1.to_string)
        = (L.map Prod.fst).map CargoKey.to_string := by
      simp [List.map_map, Function.comp]
    rw [hcomp]
    exact h.map CargoKey.to_string_injective
  simpa [CargoTally.to_json_dict] using
    foldl_dictInsert_map (fun p : CargoKey × Int => p.1.to_string) Prod.snd L []
      (fun x _ => rfl) hnd

theorem inventory_ret_cargo (s : SysState) (now : String)
    (f : Option String → Tally → Tally) (r : Option String → Tally → Bool) :
    (FleetCarrierCargo.inventory s now (fun cs c => .ret (f cs c) (r cs c))).sys.fc.cargo
      = (f s.fc.callSign s.fc.cargo).filter (fun p => p.1.isCargoKey && decide (0 < p.2)) := by
  cases hr : r s.fc.callSign s.fc.cargo <;>
    simp [FleetCarrierCargo.inventory, hr]

theorem inventory_ret_notifications (s : SysState) (now : String)
    (f : Option String → Tally → Tally) (r : Option String → Tally → Bool) :
    (FleetCarrierCargo.inventory s now (fun cs c => .ret (f cs c) (r cs c))).notifications
      = if itemsFingerprint s.fc.cargo
          = itemsFingerprint
              ((f s.fc.callSign s.fc.cargo).filter (fun p => p.1.isCargoKey && decide (0 < p.2)))
        then 0 else 1 := by
  cases hr : r s.fc.callSign s.fc.cargo <;>
    simp [FleetCarrierCargo.inventory, hr]

/-- C1 counterexample.  The claim says an empty `name.callsign` leaves all
prior state, call_sign included, unchanged; but `_load_from_capi` assigns
`_call_sign` from the response before testing it, so the prior call sign
"OLD-SIGN" is overwritten by the empty string even though the refresh
aborts: the state observable afterwards differs from the state before. -/
theorem C1_counterexample :
    (FleetCarrierCargo.load_from_capi
        ⟨⟨[(.ck ⟨"gold", false, false, none⟩, 5)], some "T0", some "OLD-SIGN"⟩,
          .ok ⟨[], some "T0", some "OLD-SIGN"⟩⟩ "T1" ⟨some (some ""), []⟩).sys.fc.callSign
        = some ""
    ∧ (FleetCarrierCargo.load_from_capi
        ⟨⟨[(.ck ⟨"gold", false, false, none⟩, 5)], some "T0", some "OLD-SIGN"⟩,
          .ok ⟨[], some "T0", some "OLD-SIGN"⟩⟩ "T1" ⟨some (some ""), []⟩).sys
        ≠ ⟨⟨[(.ck ⟨"gold", false, false, none⟩, 5)], some "T0", some "OLD-SIGN"⟩,
            .ok ⟨[], some "T0", some "OLD-SIGN"⟩⟩ := by
  decide

/-- C1 (amended): when the remote snapshot's call sign is empty or null the
refresh aborts leaving the ledger, last_sync, persisted blob unchanged and
scheduling no notification, but call_sign is overwritten with the response's
empty/null value before the abort; when the callsign key is missing
entirely, a KeyError propagates (caught and retried by update_from_server)
with every field, call_sign included, unchanged. -/
theorem C1_amended_abort_preserves_all_but_call_sign (s : SysState) (now : String)
    (items : List CAPIItem) :
    FleetCarrierCargo.load_from_capi s now ⟨some (some ""), items⟩
        = ⟨⟨⟨s.fc.cargo, s.fc.lastSync, some ""⟩, s.store⟩, 0, false⟩
    ∧ FleetCarrierCargo.load_from_capi s now ⟨some none, items⟩
        = ⟨⟨⟨s.fc.cargo, s.fc.lastSync, none⟩, s.store⟩, 0, false⟩
    ∧ FleetCarrierCargo.load_from_capi s now ⟨none, items⟩ = ⟨s, 0, true⟩ := by
  refine ⟨?_, rfl, rfl⟩
  simp [FleetCarrierCargo.load_from_capi, capiFalsy]

/-- C4: for a mutator callback that returns normally, a change notification
is scheduled exactly when the set of (key, quantity) pairs after invariant
enforcement differs from the set before the callback ran, and at most one
notification is ever scheduled per call. -/
theorem C4_notification_exactness (s : SysState) (now : String)
    (f : Option String → Tally → Tally) (r : Option String → Tally → Bool) :
    ((FleetCarrierCargo.inventory s now (fun cs c => .ret (f cs c) (r cs c))).notifications = 0
      ↔ itemsFingerprint
          (FleetCarrierCargo.inventory s now (fun cs c => .ret (f cs c) (r cs c))).sys.fc.cargo
          = itemsFingerprint s.fc.cargo)
    ∧ (FleetCarrierCargo.inventory s now (fun cs c => .ret (f cs c) (r cs c))).notifications ≤ 1 := by
  rw [inventory_ret_notifications, inventory_ret_cargo]
  constructor
  · split_ifs with h <;> simp [h, eq_comm]
  · split_ifs <;> simp

/-- C5 counterexample.  The claim says a mutator that raises still goes
through invariant enforcement before the lock is released; but `inventory`
has no try/finally, so a callback that inserts a -5 entry and then raises
leaves that entry visible in the shared state, unfiltered, with no
fingerprint pass and no notification. -/
theorem C5_counterexample :
    (FleetCarrierCargo.inventory ⟨⟨[], none, none⟩, .missing⟩ "T1"
        (fun _ c => .raised (dictInsert c (.ck ⟨"gold", false, false, none⟩) (-5)))).raised
        = true
    ∧ (FleetCarrierCargo.inventory ⟨⟨[], none, none⟩, .missing⟩ "T1"
        (fun _ c => .raised (dictInsert c (.ck ⟨"gold", false, false, none⟩) (-5)))).sys.fc.cargo
        = [(.ck ⟨"gold", false, false, none⟩, -5)]
    ∧ (FleetCarrierCargo.inventory ⟨⟨[], none, none⟩, .missing⟩ "T1"
        (fun _ c => .raised (dictInsert c (.ck ⟨"gold", false, false, none⟩) (-5)))).notifications
        = 0 := by
  decide

/-- C5 (amended): when the mutator raises, the exception propagates out of
`inventory` with the cargo left exactly as the mutator left it — no
invariant enforcement, no fingerprint comparison, no access-time update, no
persistence and no notification happen (the with-block only releases the
lock). -/
theorem C5_amended_raise_skips_enforcement (s : SysState) (now : String)
    (f : Option String → Tally → Tally) :
    FleetCarrierCargo.inventory s now (fun cs c => .raised (f cs c))
      = ⟨⟨⟨f s.fc.callSign s.fc.cargo, s.fc.lastSync, s.fc.callSign⟩, s.store⟩, 0, true⟩ := rfl

/-- C6: a second `update_from_server` worker started while the refresh
token (`_updates_lock`) is already held fails its non-blocking acquire and
returns at once: it enters zero retry-loop iterations, issues zero network
calls, schedules zero notifications, changes no state, and is not queued
(the model function terminates normally, so no error is raised either). -/
theorem C6_refresh_exclusivity (env : RemoteEnv) (s : SysState) :
    FleetCarrierCargo.updater true env s = ⟨s, 0, 0, 0⟩ := rfl

/-- C8: evaluating the code at the claim's scenario.  With dock state
(incorrectly) undocked and ledger {CargoKey "tritium" ↦ 5}, a CargoTransfer
of one line (tritium, 2, toship) does force the dock state to
docked-on-own-carrier and persists it, but the ledger's CargoKey entry is
NOT decremented to 3: the handler writes the plain string key "tritium"
(read as absent, set to -2), which `inventory` strips as an invalid key, so
the quantity observable afterwards is still 5 and no string entry remains. -/
theorem C8_transfer_eval :
    (CargoMonitor.handle_cargo_transfer ⟨⟨false⟩, none⟩
        ⟨⟨[(.ck ⟨"tritium", false, false, none⟩, 5)], some "T0", some "CS"⟩, .missing⟩
        "T1" [⟨"tritium", 2, "toship"⟩]).mon
        = ⟨⟨true⟩, some ⟨true⟩⟩
    ∧ (CargoMonitor.handle_cargo_transfer ⟨⟨false⟩, none⟩
        ⟨⟨[(.ck ⟨"tritium", false, false, none⟩, 5)], some "T0", some "CS"⟩, .missing⟩
        "T1" [⟨"tritium", 2, "toship"⟩]).inv.sys.fc.cargo
        = [(.ck ⟨"tritium", false, false, none⟩, 5)]
    ∧ dictGet (CargoMonitor.handle_cargo_transfer ⟨⟨false⟩, none⟩
        ⟨⟨[(.ck ⟨"tritium", false, false, none⟩, 5)], some "T0", some "CS"⟩, .missing⟩
        "T1" [⟨"tritium", 2, "toship"⟩]).inv.sys.fc.cargo
        (.ck ⟨"tritium", false, false, none⟩)
        = some 5 := by
  decide

/-- C9: an `inventory` call whose callback returns False leaves the
last_sync timestamp and the persisted blob untouched, whatever the callback
did to the cargo mapping; the access-time update and the save happen only
on the True path. -/
theorem C9_false_callback_frame (s : SysState) (now : String)
    (f : Option String → Tally → Tally) :
    (FleetCarrierCargo.inventory s now (fun cs c => .ret (f cs c) false)).sys.fc.lastSync
        = s.fc.lastSync
    ∧ (FleetCarrierCargo.inventory s now (fun cs c => .ret (f cs c) false)).sys.store
        = s.store := ⟨rfl, rfl⟩

/-- C10: `load` on a successfully parsed persisted blob reports success and
schedules exactly one change notification unconditionally — in particular
(last two conjuncts, a concrete instance) even when the loaded ledger,
call_sign and last_sync are identical to the current in-memory state. -/
theorem C10_load_always_notifies (fc : FCState) (b : Blob) :
    (FleetCarrierCargo.load ⟨fc, .ok b⟩).success = true
    ∧ (FleetCarrierCargo.load ⟨fc, .ok b⟩).notifications = 1
    ∧ ((FleetCarrierCargo.load
          ⟨⟨[(.ck ⟨"gold", false, false, none⟩, 5)], some "T0", some "CS"⟩,
            .ok ⟨[(⟨"gold", false, false, none⟩, 5)], some "T0", some "CS"⟩⟩).sys
        = ⟨⟨[(.ck ⟨"gold", false, false, none⟩, 5)], some "T0", some "CS"⟩,
            .ok ⟨[(⟨"gold", false, false, none⟩, 5)], some "T0", some "CS"⟩⟩
      ∧ (FleetCarrierCargo.load
          ⟨⟨[(.ck ⟨"gold", false, false, none⟩, 5)], some "T0", some "CS"⟩,
            .ok ⟨[(⟨"gold", false, false, none⟩, 5)], some "T0", some "CS"⟩⟩).notifications
        = 1) := ⟨rfl, rfl, by decide⟩

/-- C2 counterexample.  The claim quantifies over refresh-from-remote as
well, but `_load_from_capi` installs the response quantities unfiltered: a
snapshot line with qty -5 leaves an observed ledger entry of -5 that is
also persisted at -5, so a negative quantity is both observed and persisted
after the operation completes. -/
theorem C2_counterexample :
    (FleetCarrierCargo.load_from_capi ⟨⟨[], none, none⟩, .missing⟩ "T1"
        ⟨some (some "X9"), [⟨"gold", false, false, none, -5⟩]⟩).sys.fc.cargo
        = [(.ck ⟨"gold", false, false, none⟩, -5)]
    ∧ (FleetCarrierCargo.load_from_capi ⟨⟨[], none, none⟩, .missing⟩ "T1"
        ⟨some (some "X9"), [⟨"gold", false, false, none, -5⟩]⟩).sys.store
        = .ok ⟨[(⟨"gold", false, false, none⟩, -5)], some "T1", some "X9"⟩
    ∧ (-5 : Int) < 0 := by
  decide

/-- C2 (amended): after every `inventory` mutation whose callback returns
normally, every retained ledger entry has a genuine CargoKey key and a
strictly positive quantity — malformed and non-positive entries are
removed, not clamped; however `load` and refresh-from-remote install
quantities from the blob or response without this filtering, so they can
introduce entries with quantity ≤ 0 (see the counterexample). -/
theorem C2_amended_inventory_invariant (s : SysState) (now : String)
    (f : Option String → Tally → Tally) (r : Option String → Tally → Bool) :
    ∀ p ∈ (FleetCarrierCargo.inventory s now
        (fun cs c => .ret (f cs c) (r cs c))).sys.fc.cargo,
      p.1.isCargoKey = true ∧ 0 < p.2 := by
  intro p hp
  rw [inventory_ret_cargo] at hp
  have h := (List.mem_filter.mp hp).2
  simp only [Bool.and_eq_true, decide_eq_true_eq] at h
  exact h

theorem C2_amended_inventory_invariant_witness :
    (LKey.ck ⟨"gold", false, false, none⟩).isCargoKey = true ∧ (0 : Int) < 5 :=
  C2_amended_inventory_invariant ⟨⟨[], none, none⟩, .missing⟩ "T1"
    (fun _ _ => [(.ck ⟨"gold", false, false, none⟩, 5)]) (fun _ _ => false)
    (.ck ⟨"gold", false, false, none⟩, 5) (by decide)

/-- C3 counterexample.  The claim says serialization round-trips without
loss for ledgers whose keys differ only in provenance; but
`CargoKey.__init__` forces `stolen`/`mission`/`originSystem` to their
defaults when decoding, so a ledger with a stolen and a non-stolen "gold"
key collapses to a single default-provenance key (the stolen entry is
lost) and the round trip is not the identity. -/
theorem C3_counterexample :
    CargoTally.from_json_dict (CargoTally.to_json_dict
        [(⟨"gold", true, false, none⟩, 1), (⟨"gold", false, false, none⟩, 2)])
        ≠ [(⟨"gold", true, false, none⟩, 1), (⟨"gold", false, false, none⟩, 2)]
    ∧ CargoTally.from_json_dict (CargoTally.to_json_dict
        [(⟨"gold", true, false, none⟩, 1), (⟨"gold", false, false, none⟩, 2)])
        = [(⟨"gold", false, false, none⟩, 2)] := by
  decide

/-- C3 (amended): `deserialize(serialize(ledger)) = ledger` holds for every
ledger whose (necessarily distinct) keys are all fixed points of the
constructor's normalization — lower-case commodity and the forced default
provenance, i.e. exactly the keys `CargoKey.__init__` can actually
produce; keys with non-default provenance are not preserved (they collapse
to the default, see the counterexample). -/
theorem C3_amended_roundtrip (L : KTally) (hnd : (L.map Prod.fst).Nodup)
    (hkeys : ∀ k ∈ L.map Prod.fst, CargoKey.ofDict k.to_string = k) :
    CargoTally.from_json_dict (CargoTally.to_json_dict L) = L := by
  rw [CargoTally.to_json_dict_eq_map L hnd]
  have hmap : (L.map (fun p => (p.1.to_string, p.2))).map
      (fun q : KeyDict × Int => CargoKey.ofDict q.1) = L.map Prod.fst := by
    rw [List.map_map]
    exact List.map_congr_left fun p hp => hkeys p.1 (List.mem_map_of_mem Prod.fst hp)
  have hnd2 : ((L.map (fun p => (p.1.to_string, p.2))).map
      (fun q : KeyDict × Int => CargoKey.ofDict q.1)).Nodup := by
    rw [hmap]; exact hnd
  have hfold := foldl_dictInsert_map (fun q : KeyDict × Int => CargoKey.ofDict q.1) Prod.snd
    (L.map (fun p => (p.1.to_string, p.2))) [] (fun x _ => rfl) hnd2
  unfold CargoTally.from_json_dict
  rw [hfold, List.nil_append, List.map_map]
  have hid : ∀ p ∈ L, ((fun q : KeyDict × Int => (CargoKey.ofDict q.1, q.2)) ∘
      (fun p : CargoKey × Int => (p.1.to_string, p.2))) p = id p := by
    intro p hp
    have := hkeys p.1 (List.mem_map_of_mem Prod.fst hp)
    simp [Function.comp, this]
  rw [List.map_congr_left hid, List.map_id]

theorem C3_amended_roundtrip_witness :
    CargoTally.from_json_dict (CargoTally.to_json_dict
        [(⟨"gold", false, false, none⟩, 5), (⟨"silver", false, false, none⟩, 3)])
        = [(⟨"gold", false, false, none⟩, 5), (⟨"silver", false, false, none⟩, 3)] :=
  C3_amended_roundtrip _ (by decide) (by decide)

/-- C7: `is_sync_stale` returns false exactly when `last_sync` is a
present, non-empty, parsable timestamp at most max_age_seconds old — i.e.
it returns true exactly when the timestamp is absent, empty, unparsable,
or strictly older than the bound; concretely, with `last_sync` at epoch
1791763200 (2026-10-12T00:00:00+00:00), `is_sync_stale 3600` is false 3599
and 3600 seconds later and true 3601 seconds later, and it is true for a
null, empty, or unparsable `last_sync`. -/
theorem C7_staleness_boundary :
    (∀ (ls : Option String) (nowE maxAge : Int),
        FleetCarrierCargo.is_sync_stale ls nowE maxAge = false ↔
          ∃ str t, ls = some str ∧ str ≠ "" ∧ fromisoformatUTC str = some t ∧
            nowE - t ≤ maxAge)
    ∧ FleetCarrierCargo.is_sync_stale (some "2026-10-12T00:00:00+00:00") (1791763200 + 3599) 3600
        = false
    ∧ FleetCarrierCargo.is_sync_stale (some "2026-10-12T00:00:00+00:00") (1791763200 + 3600) 3600
        = false
    ∧ FleetCarrierCargo.is_sync_stale (some "2026-10-12T00:00:00+00:00") (1791763200 + 3601) 3600
        = true
    ∧ FleetCarrierCargo.is_sync_stale none 1791763200 3600 = true
    ∧ FleetCarrierCargo.is_sync_stale (some "") 1791763200 3600 = true
    ∧ FleetCarrierCargo.is_sync_stale (some "not-a-timestamp") 1791763200 3600 = true := by
  refine ⟨?_, by decide, by decide, by decide, by decide, by decide, by decide⟩
  intro ls nowE maxAge
  cases ls with
  | none => simp [FleetCarrierCargo.is_sync_stale]
  | some str =>
    by_cases hs : str = ""
    · subst hs
      simp [FleetCarrierCargo.is_sync_stale]
    · cases hparse : fromisoformatUTC str with
      | none =>
        simp only [FleetCarrierCargo.is_sync_stale, if_neg hs, hparse]
        constructor
        · intro h
          exact absurd h (by simp)
        · rintro ⟨str2, t2, heq, -, hp2, -⟩
          rw [Option.some_inj.mp heq] at hparse
          rw [hparse] at hp2
          exact absurd hp2 (by simp)
      | some t =>
        simp only [FleetCarrierCargo.is_sync_stale, if_neg hs, hparse,
          decide_eq_false_iff_not, not_lt]
        constructor
        · intro h
          exact ⟨str, t, rfl, hs, hparse, h⟩
        · rintro ⟨str2, t2, heq, -, hp2, hle⟩
          rw [Option.some_inj.mp heq] at hparse
          rw [hparse] at hp2
          have ht : t = t2 := Option.some_inj.mp hp2
          omega
